import Mathlib

/-!
Verification of the task-management API (`src/app.py`).

The development shallowly embeds the program: the sqlite database is a record
of rows, timestamps and the current time are explicit `Int` parameters, the
PyJWT library is modelled as an idealized signing scheme (a signature verifies
exactly when it was produced with the same secret), and `hashlib.sha256` is
implemented directly over `Nat`.  Each request handler of `app.py` is
translated into a pure Lean function from request data and database state to
an HTTP response (status code and JSON-shaped body) and the new state.
-/

/-! ## SHA-256 (model of `hashlib.sha256(...).hexdigest()`)

A direct implementation of FIPS 180-4 SHA-256 over natural numbers; 32-bit
words are naturals reduced modulo `2 ^ 32`. -/

namespace SHA256

/-- `2 ^ 32`, the word modulus. -/
def w32 : Nat := 4294967296

/-- Right rotation of a 32-bit word. -/
def rotr (n x : Nat) : Nat := ((x >>> n) ||| (x <<< (32 - n))) % w32

/-- Logical right shift. -/
def shr (n x : Nat) : Nat := x >>> n

def smallSigma0 (x : Nat) : Nat := (rotr 7 x) ^^^ (rotr 18 x) ^^^ (shr 3 x)

def smallSigma1 (x : Nat) : Nat := (rotr 17 x) ^^^ (rotr 19 x) ^^^ (shr 10 x)

def bigSigma0 (x : Nat) : Nat := (rotr 2 x) ^^^ (rotr 13 x) ^^^ (rotr 22 x)

def bigSigma1 (x : Nat) : Nat := (rotr 6 x) ^^^ (rotr 11 x) ^^^ (rotr 25 x)

/-- Choice function; the complement of a 32-bit word is `x ^^^ 0xffffffff`. -/
def ch (x y z : Nat) : Nat := (x &&& y) ^^^ ((x ^^^ 4294967295) &&& z)

def maj (x y z : Nat) : Nat := (x &&& y) ^^^ (x &&& z) ^^^ (y &&& z)

/-- The first 64 primes, from which FIPS 180-4 derives its constants. -/
def firstPrimes : List Nat :=
  [2, 3, 5, 7, 11, 13, 17, 19, 23, 29, 31, 37, 41, 43, 47, 53,
   59, 61, 67, 71, 73, 79, 83, 89, 97, 101, 103, 107, 109, 113, 127, 131,
   137, 139, 149, 151, 157, 163, 167, 173, 179, 181, 191, 193, 197, 199, 211, 223,
   227, 229, 233, 239, 241, 251, 257, 263, 269, 271, 277, 281, 283, 293, 307, 311]

/-- Integer cube root by fueled binary search: the greatest `k` in `[lo, hi)`
with `k ^ 3 ≤ n`, for `lo ^ 3 ≤ n < hi ^ 3`. -/
def cbrtAux (n : Nat) : Nat → Nat → Nat → Nat
  | 0, lo, _ => lo
  | fuel + 1, lo, hi =>
    if hi ≤ lo + 1 then lo
    else
      let mid := (lo + hi) / 2
      if mid * mid * mid ≤ n then cbrtAux n fuel mid hi else cbrtAux n fuel lo mid

/-- Integer cube root (128 halvings cover every `n < 2 ^ 128`). -/
def cbrt (n : Nat) : Nat := cbrtAux n 128 0 (n + 1)

/-- The 64 round constants `K₀…K₆₃`: the first 32 bits of the fractional
parts of the cube roots of the first 64 primes (FIPS 180-4 §4.2.2), i.e.
`⌊2 ^ 96 · p⌋^(1/3) mod 2 ^ 32`. -/
def K : List Nat := firstPrimes.map (fun p => cbrt (p <<< 96) % w32)

/-- Working state: eight 32-bit words. -/
structure Hash8 where
  a : Nat
  b : Nat
  c : Nat
  d : Nat
  e : Nat
  f : Nat
  g : Nat
  h : Nat
deriving DecidableEq

/-- One initial-hash word: the first 32 bits of the fractional part of the
square root of a prime (FIPS 180-4 §5.3.3). -/
def h0 (p : Nat) : Nat := Nat.sqrt (p <<< 64) % w32

/-- The initial hash value `H⁽⁰⁾`, derived from the first 8 primes. -/
def initH : Hash8 := ⟨h0 2, h0 3, h0 5, h0 7, h0 11, h0 13, h0 17, h0 19⟩

/-- One compression round. -/
def compressRound (s : Hash8) (k w : Nat) : Hash8 :=
  let t1 := (s.h + bigSigma1 s.e + ch s.e s.f s.g + k + w) % w32
  let t2 := (bigSigma0 s.a + maj s.a s.b s.c) % w32
  ⟨(t1 + t2) % w32, s.a, s.b, s.c, (s.d + t1) % w32, s.e, s.f, s.g⟩

/-- Message-schedule extension; `ws` holds the schedule so far, newest word
first, so `w[i-2]` is at index 1, `w[i-7]` at 6, `w[i-15]` at 14, `w[i-16]`
at 15. -/
def extendW : Nat → List Nat → List Nat
  | 0, ws => ws
  | n + 1, ws =>
    let nw := (ws.getD 15 0 + smallSigma0 (ws.getD 14 0) + ws.getD 6 0
                + smallSigma1 (ws.getD 1 0)) % w32
    extendW n (nw :: ws)

/-- Big-endian 32-bit words from a byte list. -/
def toWords : List Nat → List Nat
  | b0 :: b1 :: b2 :: b3 :: rest =>
    (((b0 * 256 + b1) * 256 + b2) * 256 + b3) :: toWords rest
  | _ => []

/-- The 64-word message schedule of one 64-byte chunk. -/
def schedule (chunk : List Nat) : List Nat :=
  (extendW 48 (toWords chunk).reverse).reverse

/-- Process one 64-byte chunk. -/
def processChunk (s : Hash8) (chunk : List Nat) : Hash8 :=
  let t := (List.zip K (schedule chunk)).foldl (fun st p => compressRound st p.1 p.2) s
  ⟨(s.a + t.a) % w32, (s.b + t.b) % w32, (s.c + t.c) % w32, (s.d + t.d) % w32,
   (s.e + t.e) % w32, (s.f + t.f) % w32, (s.g + t.g) % w32, (s.h + t.h) % w32⟩

/-- Big-endian byte expansion of fixed width. -/
def beBytes : Nat → Nat → List Nat
  | 0, _ => []
  | n + 1, v => beBytes n (v / 256) ++ [v % 256]

/-- FIPS 180-4 padding: a `0x80` byte, zeros up to 56 mod 64, then the
bit length as a 64-bit big-endian integer. -/
def padMessage (bs : List Nat) : List Nat :=
  bs ++ [128] ++ List.replicate ((120 - ((bs.length + 1) % 64)) % 64) 0
     ++ beBytes 8 (8 * bs.length)

/-- Split into 64-byte chunks; the first argument is recursion fuel, always
instantiated with the (sufficient) total length. -/
def chunksAux : Nat → List Nat → List (List Nat)
  | 0, _ => []
  | _ + 1, [] => []
  | n + 1, bs => (bs.take 64) :: chunksAux n (bs.drop 64)

/-- Lower-case hex digit. -/
def hexChar (n : Nat) : Char := if n < 10 then Char.ofNat (48 + n) else Char.ofNat (87 + n)

/-- Big-endian nibble expansion of fixed width. -/
def nibbles : Nat → Nat → List Nat
  | 0, _ => []
  | n + 1, v => nibbles n (v / 16) ++ [v % 16]

/-- Eight hex characters of one 32-bit word. -/
def wordHex (v : Nat) : List Char := (nibbles 8 v).map hexChar

/-- SHA-256 hex digest of a byte list. -/
def sha256hex (bs : List Nat) : String :=
  let p := padMessage bs
  let t := (chunksAux p.length p).foldl processChunk initH
  String.mk (([t.a, t.b, t.c, t.d, t.e, t.f, t.g, t.h].map wordHex).flatten)

/-- UTF-8 encoding of one character (model of Python `str.encode()`). -/
def utf8Bytes (c : Char) : List Nat :=
  let n := c.toNat
  if n < 128 then [n]
  else if n < 2048 then [192 + n / 64, 128 + n % 64]
  else if n < 65536 then [224 + n / 4096, 128 + (n / 64) % 64, 128 + n % 64]
  else [240 + n / 262144, 128 + (n / 4096) % 64, 128 + (n / 64) % 64, 128 + n % 64]

/-- UTF-8 bytes of a string. -/
def strBytes (s : String) : List Nat := (s.data.map utf8Bytes).flatten

end SHA256

/-- Model of `hash_password` (src/app.py:77-79): the SHA-256 hex digest of the
UTF-8 encoded password. -/
def hash_password (password : String) : String :=
  SHA256.sha256hex (SHA256.strBytes password)

/-- The credential check performed by `login` (src/app.py:165): the stored
digest is compared against the recomputed hash of the presented plaintext for
exact string equality. -/
def verify (plaintext digest : String) : Bool :=
  hash_password plaintext == digest

/-! ## JWT (model of the PyJWT calls in `app.py`)

The application calls `jwt.encode(payload, SECRET_KEY)` and
`jwt.decode(token, SECRET_KEY, algorithms=['HS256'])`.  The library is
idealized as a perfect signing scheme: a token is either a payload signed
with some secret (the signature verifies exactly when decoding uses the same
secret) or an unparseable blob.  `jwt.decode` validates the `exp` claim when
present, accepting the token exactly at instants strictly before expiry. -/

/-- Decoded JWT claims.  Both fields are optional: the application always
sets both (src/app.py:131-134), but an arbitrary presented token need not
carry them. -/
structure JwtPayload where
  user_id : Option Nat
  exp : Option Int
deriving DecidableEq

/-- A token string as the idealized JWT library classifies it. -/
inductive TokenBlob where
  | signed (payload : JwtPayload) (secret : String)
  | malformed (raw : String)
deriving DecidableEq

/-- Reasons `jwt.decode` raises (`InvalidSignatureError`,
`ExpiredSignatureError`, `DecodeError`). -/
inductive JwtError where
  | invalidSignature
  | expired
  | unparseable
deriving DecidableEq

/-- Model of `jwt.encode(payload, secret)`. -/
def jwt_encode (payload : JwtPayload) (secret : String) : TokenBlob :=
  .signed payload secret

/-- Model of `jwt.decode(token, secret, algorithms=['HS256'])` at current
time `now`: signature check, then expiry check (`exp ≤ now` is expired). -/
def jwt_decode (t : TokenBlob) (secret : String) (now : Int) : Except JwtError JwtPayload :=
  match t with
  | .malformed _ => .error .unparseable
  | .signed payload s =>
    if s ≠ secret then .error .invalidSignature
    else
      match payload.exp with
      | some e => if e ≤ now then .error .expired else .ok payload
      | none => .ok payload

/-- `app.config['SECRET_KEY']` (src/app.py:11). -/
def SECRET_KEY : String := "your-secret-key-change-in-production"

/-- Token lifetime: `datetime.timedelta(hours=24)` in seconds
(src/app.py:133). -/
def tokenLifetime : Int := 86400

/-! ## Database state (model of the sqlite database)

Rows of the two tables created by `init_db` (src/app.py:31-56); `id` columns
are `INTEGER PRIMARY KEY AUTOINCREMENT` (first value 1), `username` and
`email` are `UNIQUE`, and `created_at` defaults to the current timestamp,
which the embedding passes explicitly. -/

structure UserRow where
  id : Nat
  username : String
  email : String
  password_hash : String
  created_at : Int
deriving DecidableEq

structure TaskRow where
  id : Nat
  title : String
  description : String
  status : String
  priority : String
  user_id : Nat
  created_at : Int
  updated_at : Int
deriving DecidableEq

/-- The whole database: table contents plus the next autoincrement ids. -/
structure DB where
  users : List UserRow
  tasks : List TaskRow
  nextUserId : Nat
  nextTaskId : Nat
deriving DecidableEq

/-- The state right after `init_db` on a fresh file: empty tables, first
autoincrement value 1. -/
def emptyDB : DB := ⟨[], [], 1, 1⟩

/-- Well-formedness maintained by sqlite autoincrement: every existing row id
is below the next id to be assigned. -/
def DB.WF (db : DB) : Bool :=
  db.users.all (fun u => u.id < db.nextUserId) && db.tasks.all (fun t => t.id < db.nextTaskId)

/-! ## Requests, responses and headers -/

/-- Body of `POST /auth/register`; a field holds `""` when missing or empty
(both are falsy for the validation in src/app.py:112). -/
structure RegisterReq where
  username : String
  email : String
  password : String
deriving DecidableEq

/-- Body of `POST /auth/login`. -/
structure LoginReq where
  email : String
  password : String
deriving DecidableEq

/-- Body of `POST /tasks`; `none` marks an absent key, so that
`data.get(k, default)` (src/app.py:231-234) is `Option.getD`. -/
structure CreateTaskReq where
  title : Option String
  description : Option String
  status : Option String
  priority : Option String
deriving DecidableEq

/-- Task JSON in the `GET /tasks` response (src/app.py:199-207). -/
structure TaskListItem where
  id : Nat
  title : String
  description : String
  status : String
  priority : String
  created_at : Int
deriving DecidableEq

/-- Task JSON in the `POST /tasks` response (src/app.py:249-256). -/
structure TaskCreatedItem where
  id : Nat
  title : String
  description : String
  status : String
  priority : String
deriving DecidableEq

def taskToListItem (t : TaskRow) : TaskListItem :=
  ⟨t.id, t.title, t.description, t.status, t.priority, t.created_at⟩

def taskToCreatedItem (t : TaskRow) : TaskCreatedItem :=
  ⟨t.id, t.title, t.description, t.status, t.priority⟩

/-- JSON response bodies the four handlers build. -/
inductive Body where
  | message (text : String)
  | errorText (text : String)
  | authSuccess (text : String) (token : TokenBlob) (id : Nat) (username : String) (email : String)
  | taskList (tasks : List TaskListItem) (count : Nat)
  | taskCreated (text : String) (task : TaskCreatedItem)
deriving DecidableEq

/-- An HTTP response: status code and JSON body. -/
abbrev Response := Nat × Body

/-- The `Authorization` header as `token_required` (src/app.py:58-75) sees
it: absent, present but empty (also falsy for `if not token`), or carrying a
token with or without the `Bearer ` prefix (the prefix is stripped when
present, so both cases continue with the bare token). -/
inductive Header where
  | absent
  | empty
  | bearer (blob : TokenBlob)
  | raw (blob : TokenBlob)
deriving DecidableEq

/-! ## Handlers (translations of the route functions in `app.py`) -/

/-- Model of the `token_required` decorator (src/app.py:58-75): missing or
empty header gives 401 "Token is missing"; a failure of `jwt.decode` or of
the `data['user_id']` lookup is caught by the bare `except` and gives 401
"Token is invalid"; otherwise the wrapped handler runs with the verified
`user_id`. -/
def token_required (f : Nat → DB → Response × DB) (hdr : Header) (now : Int) (db : DB) :
    Response × DB :=
  match hdr with
  | .absent => ((401, .message "Token is missing"), db)
  | .empty => ((401, .message "Token is missing"), db)
  | .bearer blob | .raw blob =>
    match jwt_decode blob SECRET_KEY now with
    | .error _ => ((401, .message "Token is invalid"), db)
    | .ok payload =>
      match payload.user_id with
      | none => ((401, .message "Token is invalid"), db)
      | some uid => f uid db

/-- Does some existing user already hold this username or email?  This is
exactly the condition under which the `INSERT INTO users` of `register`
raises `sqlite3.IntegrityError` (UNIQUE constraints, src/app.py:36-39). -/
def usernameOrEmailTaken (db : DB) (username email : String) : Bool :=
  db.users.any (fun u => u.username == username || u.email == email)

/-- Model of `register` (src/app.py:105-148).  `none` for the request models
a missing/unparseable JSON body (`not data`).  The post-insert
`SELECT ... WHERE email = ?` is `List.find?` in row order (sqlite returns
the lowest rowid first); its `none` branch is unreachable and modelled as
the uncaught-exception 500. -/
def register (db : DB) (req : Option RegisterReq) (now : Int) : Response × DB :=
  match req with
  | none => ((400, .message "Username, email and password required"), db)
  | some data =>
    if data.username = "" ∨ data.email = "" ∨ data.password = "" then
      ((400, .message "Username, email and password required"), db)
    else
      let pw := hash_password data.password
      if usernameOrEmailTaken db data.username data.email then
        ((400, .message "Username or email already exists"), db)
      else
        let newUser : UserRow := ⟨db.nextUserId, data.username, data.email, pw, now⟩
        let db' : DB := { db with users := db.users ++ [newUser], nextUserId := db.nextUserId + 1 }
        match db'.users.find? (fun u => u.email == data.email) with
        | none => ((500, .errorText "no such user"), db')
        | some u =>
          let token := jwt_encode ⟨some u.id, some (now + tokenLifetime)⟩ SECRET_KEY
          ((201, .authSuccess "User created successfully" token u.id u.username u.email), db')

/-- Model of `login` (src/app.py:150-185): look the user up by email, then
compare the stored digest with the recomputed hash; both failure modes fall
into the same branch in the source (`if not user or user['password_hash'] !=
hash_password(...)`), split here into two arms returning the identical
response. -/
def login (db : DB) (req : Option LoginReq) (now : Int) : Response :=
  match req with
  | none => (400, .message "Email and password required")
  | some data =>
    if data.email = "" ∨ data.password = "" then
      (400, .message "Email and password required")
    else
      match db.users.find? (fun u => u.email == data.email) with
      | none => (401, .message "Invalid credentials")
      | some user =>
        if user.password_hash ≠ hash_password data.password then
          (401, .message "Invalid credentials")
        else
          let token := jwt_encode ⟨some user.id, some (now + tokenLifetime)⟩ SECRET_KEY
          (200, .authSuccess "Login successful" token user.id user.username user.email)

/-- Descending order on creation time, the `ORDER BY created_at DESC` of
src/app.py:193. -/
def createdDesc (s t : TaskRow) : Prop := t.created_at ≤ s.created_at

instance : DecidableRel createdDesc := fun s t => Int.decLe t.created_at s.created_at

instance : IsTotal TaskRow createdDesc := ⟨fun s t => Int.le_total t.created_at s.created_at⟩

instance : IsTrans TaskRow createdDesc := ⟨fun _ _ _ h h' => le_trans h' h⟩

/-- Model of `get_tasks` (src/app.py:187-216): select the caller's rows,
newest first, and serialize them; `count` is the length of the serialized
list.  The handler never fails (the `except` branch needs a storage error,
which the state model does not produce). -/
def get_tasks (current_user_id : Nat) (db : DB) : Response × DB :=
  let rows := List.insertionSort createdDesc
    (db.tasks.filter (fun t => t.user_id == current_user_id))
  let items := rows.map taskToListItem
  ((200, .taskList items items.length), db)

/-- Model of `create_task` (src/app.py:218-259): missing body or falsy
`title` give 400; otherwise the row is inserted with the defaults of
`data.get` and re-read by `lastrowid` (`List.find?` on the id, in row
order). -/
def create_task (current_user_id : Nat) (req : Option CreateTaskReq) (now : Int) (db : DB) :
    Response × DB :=
  match req with
  | none => ((400, .message "Title is required"), db)
  | some data =>
    if data.title.getD "" = "" then
      ((400, .message "Title is required"), db)
    else
      let row : TaskRow :=
        ⟨db.nextTaskId, data.title.getD "", data.description.getD "",
         data.status.getD "pending", data.priority.getD "medium", current_user_id, now, now⟩
      let db' : DB := { db with tasks := db.tasks ++ [row], nextTaskId := db.nextTaskId + 1 }
      match db'.tasks.find? (fun t => t.id == db.nextTaskId) with
      | none => ((500, .errorText "no such task"), db')
      | some task =>
        ((201, .taskCreated "Task created successfully" (taskToCreatedItem task)), db')

/-! ## Helper lemmas -/

theorem SHA256.nibbles_length (n v : Nat) : (SHA256.nibbles n v).length = n := by
  induction n generalizing v with
  | zero => rfl
  | succ n ih => simp [SHA256.nibbles, ih]

theorem SHA256.wordHex_length (v : Nat) : (SHA256.wordHex v).length = 8 := by
  simp [SHA256.wordHex, SHA256.nibbles_length]

/-- Every SHA-256 hex digest is 64 characters long. -/
theorem SHA256.sha256hex_length (bs : List Nat) : (SHA256.sha256hex bs).length = 64 := by
  simp [SHA256.sha256hex, String.length, SHA256.wordHex_length]

theorem hash_password_length (p : String) : (hash_password p).length = 64 := by
  simp [hash_password, SHA256.sha256hex_length]

/-- A string shorter or longer than 64 characters is not a SHA-256 digest. -/
theorem ne_hash_of_length_ne (p d : String) (h : d.length ≠ 64) : d ≠ hash_password p := by
  intro he
  exact h (he ▸ hash_password_length p)

/-! ## Claims about the authentication gate -/

/-- C1: for every request to a task endpoint, a missing (or empty, also falsy)
Authorization header yields 401 "Token is missing"; a present token whose
verification fails for any reason yields 401 "Token is invalid"; and the only
other possible outcome is the inner handler applied to the `user_id` embedded
in a successfully verified token — no unverified principal ever reaches the
handler. -/
theorem token_gate_contract (f : Nat → DB → Response × DB) (hdr : Header) (now : Int) (db : DB) :
    ((hdr = .absent ∨ hdr = .empty) →
      token_required f hdr now db = ((401, .message "Token is missing"), db))
    ∧ (∀ blob e, (hdr = .bearer blob ∨ hdr = .raw blob) →
        jwt_decode blob SECRET_KEY now = .error e →
        token_required f hdr now db = ((401, .message "Token is invalid"), db))
    ∧ (∀ res, token_required f hdr now db = res →
        res = ((401, .message "Token is missing"), db)
        ∨ res = ((401, .message "Token is invalid"), db)
        ∨ ∃ blob payload uid, (hdr = .bearer blob ∨ hdr = .raw blob)
            ∧ jwt_decode blob SECRET_KEY now = .ok payload
            ∧ payload.user_id = some uid ∧ res = f uid db) := by
  refine ⟨?_, ?_, ?_⟩
  · rintro (rfl | rfl) <;> rfl
  · rintro blob e (rfl | rfl) hdec <;> simp [token_required, hdec]
  · intro res hres
    cases hdr with
    | absent => exact Or.inl hres.symm
    | empty => exact Or.inl hres.symm
    | bearer blob =>
      cases hdec : jwt_decode blob SECRET_KEY now with
      | error e => simp [token_required, hdec] at hres; exact Or.inr (Or.inl hres.symm)
      | ok payload =>
        cases huid : payload.user_id with
        | none =>
          simp [token_required, hdec, huid] at hres
          exact Or.inr (Or.inl hres.symm)
        | some uid =>
          refine Or.inr (Or.inr ⟨blob, payload, uid, Or.inl rfl, hdec, huid, ?_⟩)
          simp [token_required, hdec, huid] at hres
          exact hres.symm
    | raw blob =>
      cases hdec : jwt_decode blob SECRET_KEY now with
      | error e => simp [token_required, hdec] at hres; exact Or.inr (Or.inl hres.symm)
      | ok payload =>
        cases huid : payload.user_id with
        | none =>
          simp [token_required, hdec, huid] at hres
          exact Or.inr (Or.inl hres.symm)
        | some uid =>
          refine Or.inr (Or.inr ⟨blob, payload, uid, Or.inr rfl, hdec, huid, ?_⟩)
          simp [token_required, hdec, huid] at hres
          exact hres.symm

/-- Witness for C1 at concrete inputs: a request with no header is rejected
as missing, and a garbage bearer token is rejected as invalid. -/
theorem token_gate_contract_witness :
    token_required (fun _ db => ((200, .taskList [] 0), db)) .absent 0 emptyDB
      = ((401, .message "Token is missing"), emptyDB)
    ∧ token_required (fun _ db => ((200, .taskList [] 0), db))
        (.bearer (.malformed "garbage")) 0 emptyDB
      = ((401, .message "Token is invalid"), emptyDB) :=
  ⟨(token_gate_contract _ .absent 0 emptyDB).1 (Or.inl rfl),
   (token_gate_contract _ (.bearer (.malformed "garbage")) 0 emptyDB).2.1
     (.malformed "garbage") .unparseable (Or.inl rfl) rfl⟩

/-- C9: the gate is a total function whose outcome is always one of the two
401 responses or the inner handler on a verified id; in particular a token
that is validly signed and unexpired but whose payload lacks `user_id` (the
`data['user_id']` lookup raises, and the bare `except` catches it) yields
401 "Token is invalid" rather than an uncaught exception. -/
theorem token_gate_never_raises (f : Nat → DB → Response × DB) (hdr : Header) (now : Int) (db : DB) :
    (token_required f hdr now db = ((401, .message "Token is missing"), db)
      ∨ token_required f hdr now db = ((401, .message "Token is invalid"), db)
      ∨ ∃ uid, token_required f hdr now db = f uid db)
    ∧ ∀ e : Int, now < e →
        token_required f (.bearer (.signed ⟨none, some e⟩ SECRET_KEY)) now db
          = ((401, .message "Token is invalid"), db) := by
  constructor
  · cases hdr with
    | absent => exact Or.inl rfl
    | empty => exact Or.inl rfl
    | bearer blob =>
      cases hdec : jwt_decode blob SECRET_KEY now with
      | error e => exact Or.inr (Or.inl (by simp [token_required, hdec]))
      | ok payload =>
        cases huid : payload.user_id with
        | none => exact Or.inr (Or.inl (by simp [token_required, hdec, huid]))
        | some uid => exact Or.inr (Or.inr ⟨uid, by simp [token_required, hdec, huid]⟩)
    | raw blob =>
      cases hdec : jwt_decode blob SECRET_KEY now with
      | error e => exact Or.inr (Or.inl (by simp [token_required, hdec]))
      | ok payload =>
        cases huid : payload.user_id with
        | none => exact Or.inr (Or.inl (by simp [token_required, hdec, huid]))
        | some uid => exact Or.inr (Or.inr ⟨uid, by simp [token_required, hdec, huid]⟩)
  · intro e he
    have hdec : jwt_decode (.signed ⟨none, some e⟩ SECRET_KEY) SECRET_KEY now
        = .ok ⟨none, some e⟩ := by
      simp [jwt_decode, not_le.mpr he]
    simp [token_required, hdec]

/-- Witness for C9: a signed, unexpired token without a `user_id` claim gets
the invalid-token 401. -/
theorem token_gate_never_raises_witness :
    (0 : Int) < 100
    ∧ token_required (fun _ db => ((200, .taskList [] 0), db))
        (.bearer (.signed ⟨none, some 100⟩ SECRET_KEY)) 0 emptyDB
      = ((401, .message "Token is invalid"), emptyDB) :=
  ⟨by decide,
   (token_gate_never_raises (fun _ db => ((200, .taskList [] 0), db))
     .absent 0 emptyDB).2 100 (by decide)⟩

/-! ## Claims about login -/

/-- C4: for a login request with non-empty email and password, an unknown
email and a known email with a wrong password digest produce the literally
identical response, 401 with message "Invalid credentials". -/
theorem login_indistinguishable (db : DB) (data : LoginReq) (now : Int)
    (hne : data.email ≠ "" ∧ data.password ≠ "")
    (hfail : db.users.find? (fun u => u.email == data.email) = none
      ∨ ∃ u, db.users.find? (fun u => u.email == data.email) = some u
          ∧ u.password_hash ≠ hash_password data.password) :
    login db (some data) now = (401, .message "Invalid credentials") := by
  have hcond : ¬(data.email = "" ∨ data.password = "") := by
    rintro (h | h)
    · exact hne.1 h
    · exact hne.2 h
  rcases hfail with hnone | ⟨u, hu, hpw⟩
  · simp [login, hcond, hnone]
  · simp [login, hcond, hu, hpw]

/-- Witness for C4: in a store holding one user `alice` (stored digest is not
a SHA-256 digest, being 6 characters long), logging in with `alice`'s email
and a wrong password and logging in with an unknown email both give the same
401 "Invalid credentials". -/
theorem login_indistinguishable_witness :
    login ⟨[⟨1, "alice", "a@x.com", "digest", 0⟩], [], 2, 1⟩
        (some ⟨"a@x.com", "wrongpw"⟩) 7 = (401, .message "Invalid credentials")
    ∧ login ⟨[⟨1, "alice", "a@x.com", "digest", 0⟩], [], 2, 1⟩
        (some ⟨"nobody@x.com", "pw"⟩) 7 = (401, .message "Invalid credentials") :=
  ⟨login_indistinguishable _ _ 7 ⟨by decide, by decide⟩
    (Or.inr ⟨⟨1, "alice", "a@x.com", "digest", 0⟩, by rfl,
      ne_hash_of_length_ne "wrongpw" "digest" (by decide)⟩),
   login_indistinguishable _ _ 7 ⟨by decide, by decide⟩ (Or.inl (by rfl))⟩

/-! ## Helper lemmas about the task handlers -/

/-- A failed `create_task` leaves the database unchanged; a successful one
appends a single row owned by the caller. -/
theorem create_task_db_eq_or_append (uid : Nat) (req : Option CreateTaskReq) (now : Int)
    (db : DB) :
    (create_task uid req now db).2 = db
    ∨ ∃ row : TaskRow, row.user_id = uid
        ∧ (create_task uid req now db).2
          = { db with tasks := db.tasks ++ [row], nextTaskId := db.nextTaskId + 1 } := by
  cases req with
  | none => exact Or.inl rfl
  | some data =>
    by_cases h : data.title.getD "" = ""
    · left
      simp [create_task, h]
    · right
      refine ⟨⟨db.nextTaskId, data.title.getD "", data.description.getD "",
        data.status.getD "pending", data.priority.getD "medium", uid, now, now⟩, rfl, ?_⟩
      simp only [create_task, if_neg h]
      split <;> rfl

/-- Appending a row owned by someone else does not change an owner's filter
of the task table. -/
theorem filter_append_not_owned (l : List TaskRow) (row : TaskRow) (B : Nat)
    (h : row.user_id ≠ B) :
    (l ++ [row]).filter (fun t => t.user_id == B) = l.filter (fun t => t.user_id == B) := by
  simp [List.filter_append, List.filter_cons, h]

/-- Successful `create_task`: the inserted row, its response, and the new
state, for a well-formed database (`lastrowid` re-reads exactly the inserted
row because no existing row carries the fresh id). -/
theorem create_task_success (uid : Nat) (d : CreateTaskReq) (now : Int) (db : DB) (t : String)
    (ht : d.title = some t) (hne : t ≠ "") (hwf : db.WF = true) :
    create_task uid (some d) now db
      = ((201, .taskCreated "Task created successfully"
            ⟨db.nextTaskId, t, d.description.getD "", d.status.getD "pending",
             d.priority.getD "medium"⟩),
         { db with
            tasks := db.tasks ++ [⟨db.nextTaskId, t, d.description.getD "",
              d.status.getD "pending", d.priority.getD "medium", uid, now, now⟩],
            nextTaskId := db.nextTaskId + 1 }) := by
  have hids : ∀ r ∈ db.tasks, ¬((fun r : TaskRow => r.id == db.nextTaskId) r = true) := by
    intro r hr
    have hw := hwf
    simp only [DB.WF, Bool.and_eq_true, List.all_eq_true, decide_eq_true_eq] at hw
    have h2 := hw.2 r hr
    simp only [beq_iff_eq]
    omega
  have hfind : (db.tasks ++ [(⟨db.nextTaskId, t, d.description.getD "", d.status.getD "pending",
      d.priority.getD "medium", uid, now, now⟩ : TaskRow)]).find?
        (fun r => r.id == db.nextTaskId)
      = some ⟨db.nextTaskId, t, d.description.getD "", d.status.getD "pending",
          d.priority.getD "medium", uid, now, now⟩ := by
    rw [List.find?_append, List.find?_eq_none.mpr hids]
    simp [List.find?]
  have htne : ¬(d.title.getD "" = "") := by rw [ht]; exact hne
  simp only [create_task, htne, if_neg htne, ht, Option.getD_some, hfind, taskToCreatedItem]
  rw [if_neg hne]

/-! ## Claims about the task endpoints -/

/-- C2: listing returns exactly the tasks owned by the authenticated
principal, and a task created while authenticated as `A` never shows up in
the list response of a different user `B` — `B`'s response is unchanged by
`A`'s create. -/
theorem task_isolation :
    (∀ (uid : Nat) (db : DB), ∃ items,
        get_tasks uid db = ((200, .taskList items items.length), db)
        ∧ ∀ item, item ∈ items
            ↔ ∃ row ∈ db.tasks, row.user_id = uid ∧ taskToListItem row = item)
    ∧ ∀ (A B : Nat) (req : Option CreateTaskReq) (now : Int) (db : DB), A ≠ B →
        (get_tasks B (create_task A req now db).2).1 = (get_tasks B db).1 := by
  constructor
  · intro uid db
    refine ⟨(List.insertionSort createdDesc
      (db.tasks.filter (fun t => t.user_id == uid))).map taskToListItem, rfl, ?_⟩
    intro item
    constructor
    · intro h
      rcases List.mem_map.mp h with ⟨row, hrow, hmap⟩
      rw [List.mem_insertionSort] at hrow
      rcases List.mem_filter.mp hrow with ⟨hmem, hbeq⟩
      exact ⟨row, hmem, by simpa using hbeq, hmap⟩
    · rintro ⟨row, hmem, huid, hmap⟩
      exact List.mem_map.mpr ⟨row,
        (List.mem_insertionSort _).mpr (List.mem_filter.mpr ⟨hmem, by simpa using huid⟩), hmap⟩
  · intro A B req now db hAB
    rcases create_task_db_eq_or_append A req now db with h | ⟨row, hrow, h⟩
    · rw [h]
    · rw [h]
      have hfil := filter_append_not_owned db.tasks row B (by rw [hrow]; exact hAB)
      simp only [get_tasks]
      rw [hfil]

/-- Witness for C2: user 1 creates a task; user 2's list response is the
same as before the create (here: the empty list). -/
theorem task_isolation_witness :
    (get_tasks 2 (create_task 1 (some ⟨some "buy milk", none, none, none⟩) 5 emptyDB).2).1
      = (get_tasks 2 emptyDB).1 :=
  task_isolation.2 1 2 (some ⟨some "buy milk", none, none, none⟩) 5 emptyDB (by decide)

/-- C7: the list response contains exactly the principal's tasks, is sorted
by creation time descending, is empty (status 200, no error) when the
principal owns nothing, and for exactly three owned tasks with strictly
increasing creation times `t1 < t2 < t3` the response order is
`[t3, t2, t1]`. -/
theorem list_tasks_contract (uid : Nat) (db : DB) :
    ∃ items, get_tasks uid db = ((200, .taskList items items.length), db)
      ∧ (∀ row ∈ db.tasks, row.user_id = uid → taskToListItem row ∈ items)
      ∧ (∀ item ∈ items, ∃ row ∈ db.tasks, row.user_id = uid ∧ taskToListItem row = item)
      ∧ List.Sorted (fun s t : TaskListItem => t.created_at ≤ s.created_at) items
      ∧ ((∀ row ∈ db.tasks, row.user_id ≠ uid) → items = [])
      ∧ ∀ r1 r2 r3, db.tasks.filter (fun t => t.user_id == uid) = [r1, r2, r3] →
          r1.created_at < r2.created_at → r2.created_at < r3.created_at →
          items = [taskToListItem r3, taskToListItem r2, taskToListItem r1] := by
  refine ⟨(List.insertionSort createdDesc
    (db.tasks.filter (fun t => t.user_id == uid))).map taskToListItem, rfl, ?_, ?_, ?_, ?_, ?_⟩
  · intro row hmem huid
    exact List.mem_map.mpr ⟨row,
      (List.mem_insertionSort _).mpr (List.mem_filter.mpr ⟨hmem, by simpa using huid⟩), rfl⟩
  · intro item h
    rcases List.mem_map.mp h with ⟨row, hrow, hmap⟩
    rw [List.mem_insertionSort] at hrow
    rcases List.mem_filter.mp hrow with ⟨hmem, hbeq⟩
    exact ⟨row, hmem, by simpa using hbeq, hmap⟩
  · exact List.Pairwise.map taskToListItem (fun a b hab => hab)
      (List.sorted_insertionSort createdDesc _)
  · intro hnone
    have : db.tasks.filter (fun t => t.user_id == uid) = [] := by
      apply List.filter_eq_nil_iff.mpr
      intro a ha
      simpa using hnone a ha
    rw [this]
    rfl
  · intro r1 r2 r3 hfil h12 h23
    have h13 : r1.created_at < r3.created_at := lt_trans h12 h23
    rw [hfil]
    simp only [List.insertionSort, List.orderedInsert, createdDesc,
      if_neg (not_le.mpr h12), if_neg (not_le.mpr h13), if_neg (not_le.mpr h23), List.map]

/-- Witness for C7: three tasks of user 1 created at times 10 < 20 < 30 come
back newest first, and user 2 gets the empty list. -/
theorem list_tasks_contract_witness :
    (get_tasks 1 ⟨[], [⟨1, "a", "", "pending", "medium", 1, 10, 10⟩,
        ⟨2, "b", "", "pending", "medium", 1, 20, 20⟩,
        ⟨3, "c", "", "pending", "medium", 1, 30, 30⟩], 1, 4⟩).1
      = (200, .taskList [⟨3, "c", "", "pending", "medium", 30⟩,
          ⟨2, "b", "", "pending", "medium", 20⟩, ⟨1, "a", "", "pending", "medium", 10⟩] 3)
    ∧ (get_tasks 2 ⟨[], [⟨1, "a", "", "pending", "medium", 1, 10, 10⟩], 1, 2⟩).1
      = (200, .taskList [] 0) := by
  constructor
  · rcases list_tasks_contract 1 ⟨[], [⟨1, "a", "", "pending", "medium", 1, 10, 10⟩,
        ⟨2, "b", "", "pending", "medium", 1, 20, 20⟩,
        ⟨3, "c", "", "pending", "medium", 1, 30, 30⟩], 1, 4⟩ with
      ⟨items, heq, _, _, _, _, hord⟩
    have hi := hord ⟨1, "a", "", "pending", "medium", 1, 10, 10⟩
      ⟨2, "b", "", "pending", "medium", 1, 20, 20⟩
      ⟨3, "c", "", "pending", "medium", 1, 30, 30⟩ (by decide) (by decide) (by decide)
    rw [heq, hi]
    rfl
  · rcases list_tasks_contract 2 ⟨[], [⟨1, "a", "", "pending", "medium", 1, 10, 10⟩], 1, 2⟩ with
      ⟨items, heq, _, _, _, hempty, _⟩
    have hi := hempty (by decide)
    rw [heq, hi]
    rfl

/-- C6: an authenticated create with missing body or missing/empty title is
rejected with 400 "Title is required" and leaves the database unchanged;
otherwise the task is created and returned with 201, with description
defaulting to `""`, status to `"pending"` and priority to `"medium"`
whenever the respective field is omitted (`Option.getD` is `data.get`). -/
theorem create_task_validation_and_defaults :
    (∀ (uid : Nat) (req : Option CreateTaskReq) (now : Int) (db : DB),
        (req = none ∨ ∃ d, req = some d ∧ d.title.getD "" = "") →
        create_task uid req now db = ((400, .message "Title is required"), db))
    ∧ ∀ (uid : Nat) (d : CreateTaskReq) (now : Int) (db : DB) (t : String),
        d.title = some t → t ≠ "" → db.WF = true →
        create_task uid (some d) now db
          = ((201, .taskCreated "Task created successfully"
                ⟨db.nextTaskId, t, d.description.getD "", d.status.getD "pending",
                 d.priority.getD "medium"⟩),
             { db with
                tasks := db.tasks ++ [⟨db.nextTaskId, t, d.description.getD "",
                  d.status.getD "pending", d.priority.getD "medium", uid, now, now⟩],
                nextTaskId := db.nextTaskId + 1 }) := by
  constructor
  · rintro uid req now db (rfl | ⟨d, rfl, hd⟩)
    · rfl
    · simp [create_task, hd]
  · intro uid d now db t ht hne hwf
    exact create_task_success uid d now db t ht hne hwf

/-- Witness for C6: an empty title is rejected without changing the store,
and a create with only a title gets every default. -/
theorem create_task_validation_and_defaults_witness :
    create_task 1 (some ⟨some "", some "d", none, none⟩) 3 emptyDB
      = ((400, .message "Title is required"), emptyDB)
    ∧ create_task 1 (some ⟨some "buy milk", none, none, none⟩) 3 emptyDB
      = ((201, .taskCreated "Task created successfully" ⟨1, "buy milk", "", "pending", "medium"⟩),
         ⟨[], [⟨1, "buy milk", "", "pending", "medium", 1, 3, 3⟩], 1, 2⟩) :=
  ⟨create_task_validation_and_defaults.1 1 (some ⟨some "", some "d", none, none⟩) 3 emptyDB
    (Or.inr ⟨⟨some "", some "d", none, none⟩, rfl, rfl⟩),
   create_task_validation_and_defaults.2 1 ⟨some "buy milk", none, none, none⟩ 3 emptyDB
    "buy milk" rfl (by decide) rfl⟩

/-- C10: whatever strings a create request supplies for status and priority
are stored and echoed back verbatim in the 201 response; no validation
restricts them to a fixed set. -/
theorem create_task_passthrough (uid : Nat) (d : CreateTaskReq) (now : Int) (db : DB)
    (t s p : String) (ht : d.title = some t) (hne : t ≠ "")
    (hs : d.status = some s) (hp : d.priority = some p) (hwf : db.WF = true) :
    ∃ item db', create_task uid (some d) now db
        = ((201, .taskCreated "Task created successfully" item), db')
      ∧ item.status = s ∧ item.priority = p
      ∧ ∃ row ∈ db'.tasks, row.id = item.id ∧ row.status = s ∧ row.priority = p := by
  refine ⟨_, _, create_task_success uid d now db t ht hne hwf, by simp [hs], by simp [hp],
    ⟨⟨db.nextTaskId, t, d.description.getD "", d.status.getD "pending",
      d.priority.getD "medium", uid, now, now⟩, ?_, rfl, by simp [hs], by simp [hp]⟩⟩
  simp

/-- Witness for C10: the status "nonsense" and priority "whatever" are
accepted, stored and echoed back unchanged. -/
theorem create_task_passthrough_witness :
    ∃ item db', create_task 1 (some ⟨some "t", none, some "nonsense", some "whatever"⟩) 0 emptyDB
        = ((201, .taskCreated "Task created successfully" item), db')
      ∧ item.status = "nonsense" ∧ item.priority = "whatever"
      ∧ ∃ row ∈ db'.tasks, row.id = item.id ∧ row.status = "nonsense" ∧ row.priority = "whatever" :=
  create_task_passthrough 1 ⟨some "t", none, some "nonsense", some "whatever"⟩ 0 emptyDB
    "t" "nonsense" "whatever" rfl (by decide) rfl rfl rfl

/-! ## Claims about registration -/

/-- Successful `register`: with non-empty fields and fresh username and
email, the new user gets the next autoincrement id, the post-insert
`SELECT ... WHERE email = ?` finds exactly the inserted row, and the issued
token embeds the new id with expiry `now + 24h`. -/
theorem register_success (db : DB) (data : RegisterReq) (now : Int)
    (hne : data.username ≠ "" ∧ data.email ≠ "" ∧ data.password ≠ "")
    (hfresh : usernameOrEmailTaken db data.username data.email = false) :
    register db (some data) now
      = ((201, .authSuccess "User created successfully"
            (jwt_encode ⟨some db.nextUserId, some (now + tokenLifetime)⟩ SECRET_KEY)
            db.nextUserId data.username data.email),
         { db with
            users := db.users ++ [⟨db.nextUserId, data.username, data.email,
              hash_password data.password, now⟩],
            nextUserId := db.nextUserId + 1 }) := by
  have hcond : ¬(data.username = "" ∨ data.email = "" ∨ data.password = "") := by
    rintro (h | h | h)
    · exact hne.1 h
    · exact hne.2.1 h
    · exact hne.2.2 h
  have hmail : ∀ u ∈ db.users, ¬((fun u : UserRow => u.email == data.email) u = true) := by
    intro u hu
    have hf := hfresh
    simp only [usernameOrEmailTaken, List.any_eq_false, Bool.or_eq_true, beq_iff_eq,
      not_or] at hf
    simp only [beq_iff_eq]
    exact (hf u hu).2
  have hfind : (db.users ++ [(⟨db.nextUserId, data.username, data.email,
      hash_password data.password, now⟩ : UserRow)]).find?
        (fun u => u.email == data.email)
      = some ⟨db.nextUserId, data.username, data.email, hash_password data.password, now⟩ := by
    rw [List.find?_append, List.find?_eq_none.mpr hmail]
    simp [List.find?]
  simp only [register, hcond, if_neg hcond, hfresh, if_neg (by simp [hfresh] : ¬usernameOrEmailTaken db data.username data.email = true), hfind]
  rfl

/-- C3: registering with non-empty fields and a previously unused username
and email succeeds with 201 and returns a token that, at any instant before
its expiry, `jwt.decode` accepts and resolves to exactly the new user's id —
and to no other id at any instant. -/
theorem register_token_resolves (db : DB) (data : RegisterReq) (now : Int)
    (hne : data.username ≠ "" ∧ data.email ≠ "" ∧ data.password ≠ "")
    (hfresh : usernameOrEmailTaken db data.username data.email = false) :
    ∃ token db', register db (some data) now
        = ((201, .authSuccess "User created successfully" token
              db.nextUserId data.username data.email), db')
      ∧ (∀ now' : Int, now' < now + tokenLifetime →
          jwt_decode token SECRET_KEY now'
            = .ok ⟨some db.nextUserId, some (now + tokenLifetime)⟩)
      ∧ ∀ (now' : Int) (payload : JwtPayload) (other : Nat),
          jwt_decode token SECRET_KEY now' = .ok payload → payload.user_id = some other →
          other = db.nextUserId := by
  refine ⟨_, _, register_success db data now hne hfresh, ?_, ?_⟩
  · intro now' hlt
    simp [jwt_encode, jwt_decode, not_le.mpr hlt]
  · intro now' payload other hdec huid
    simp only [jwt_encode, jwt_decode, if_neg (by simp : ¬SECRET_KEY ≠ SECRET_KEY)] at hdec
    by_cases hexp : (now + tokenLifetime : Int) ≤ now'
    · simp [hexp] at hdec
    · simp only [hexp, if_false] at hdec
      cases hdec
      simp_all

/-- Witness for C3: registering `alice` in the empty store yields a token
that decodes to user id 1 before expiry. -/
theorem register_token_resolves_witness :
    ∃ token db', register emptyDB (some ⟨"alice", "a@x.com", "pw123456"⟩) 0
        = ((201, .authSuccess "User created successfully" token 1 "alice" "a@x.com"), db')
      ∧ (∀ now' : Int, now' < 0 + tokenLifetime →
          jwt_decode token SECRET_KEY now' = .ok ⟨some 1, some (0 + tokenLifetime)⟩)
      ∧ ∀ (now' : Int) (payload : JwtPayload) (other : Nat),
          jwt_decode token SECRET_KEY now' = .ok payload → payload.user_id = some other →
          other = 1 :=
  register_token_resolves emptyDB ⟨"alice", "a@x.com", "pw123456"⟩ 0
    ⟨by decide, by decide, by decide⟩ rfl

/-- Counterexample to C5 as stated: the store holds `alice` with email
`a@x.com`; a registration attempt reusing that email but with an empty
username is caught by the field validation first (src/app.py:112) and gets
400 "Username, email and password required", not "Username or email already
exists". -/
theorem register_duplicate_counterexample :
    register ⟨[⟨1, "alice", "a@x.com", "digest", 0⟩], [], 2, 1⟩
        (some ⟨"", "a@x.com", "pw"⟩) 0
      ≠ ((400, .message "Username or email already exists"),
         ⟨[⟨1, "alice", "a@x.com", "digest", 0⟩], [], 2, 1⟩)
    ∧ register ⟨[⟨1, "alice", "a@x.com", "digest", 0⟩], [], 2, 1⟩
        (some ⟨"", "a@x.com", "pw"⟩) 0
      = ((400, .message "Username, email and password required"),
         ⟨[⟨1, "alice", "a@x.com", "digest", 0⟩], [], 2, 1⟩) := by
  constructor
  · intro h
    have := congrArg (fun r => r.1.2) h
    simp [register] at this
  · rfl

/-- C5 (amended): for every state containing a user with email `E` or
username `U`, a registration attempt with all three fields non-empty that
reuses `E` (regardless of which non-empty username) or reuses `U` fails with
400 "Username or email already exists" — a structured response, not a raw
storage exception — and the store is unchanged. -/
theorem register_duplicate (db : DB) (data : RegisterReq) (now : Int)
    (hne : data.username ≠ "" ∧ data.email ≠ "" ∧ data.password ≠ "")
    (hdup : usernameOrEmailTaken db data.username data.email = true) :
    register db (some data) now = ((400, .message "Username or email already exists"), db) := by
  have hcond : ¬(data.username = "" ∨ data.email = "" ∨ data.password = "") := by
    rintro (h | h | h)
    · exact hne.1 h
    · exact hne.2.1 h
    · exact hne.2.2 h
  simp [register, hcond, hdup]

/-- Witness for the amended C5: reusing `alice`'s email under a different
username is rejected with the duplicate message and the store is unchanged. -/
theorem register_duplicate_witness :
    register ⟨[⟨1, "alice", "a@x.com", "digest", 0⟩], [], 2, 1⟩
        (some ⟨"bob", "a@x.com", "pw"⟩) 0
      = ((400, .message "Username or email already exists"),
         ⟨[⟨1, "alice", "a@x.com", "digest", 0⟩], [], 2, 1⟩) :=
  register_duplicate ⟨[⟨1, "alice", "a@x.com", "digest", 0⟩], [], 2, 1⟩
    ⟨"bob", "a@x.com", "pw"⟩ 0 ⟨by decide, by decide, by decide⟩ rfl

/-! ## Claims about password hashing

`hash_password` always produces a 64-character hex string, so it maps the
infinitely many possible passwords into a finite set: it cannot be
injective, and the spec's "no false positives across distinct inputs" holds
only up to hash collisions (which exist, though none is concretely known for
SHA-256). -/

instance : Finite Char := by
  apply Finite.of_injective (fun c : Char => (⟨c.toNat, UInt32.toNat_lt c.val⟩ : Fin (2 ^ 32)))
  intro a b h
  have h2 : a.toNat = b.toNat := congrArg Fin.val h
  calc a = Char.ofNat a.toNat := (Char.ofNat_toNat a).symm
    _ = Char.ofNat b.toNat := by rw [h2]
    _ = b := Char.ofNat_toNat b

theorem finite_digest_strings : Finite {s : String // s.length = 64} := by
  have hfin : {l : List Char | l.length = 64}.Finite := List.finite_length_eq Char 64
  have hsub : Finite {l : List Char // l.length = 64} := hfin.to_subtype
  apply Finite.of_injective (fun s : {s : String // s.length = 64} =>
    (⟨s.1.data, s.2⟩ : {l : List Char // l.length = 64}))
  intro a b hab
  have hd : a.1.data = b.1.data := congrArg Subtype.val hab
  rcases a with ⟨⟨la⟩, ha⟩
  rcases b with ⟨⟨lb⟩, hb⟩
  simp only at hd
  subst hd
  rfl

theorem hash_password_not_injective : ¬ Function.Injective hash_password := by
  intro hinj
  have hg : Function.Injective (fun n : Nat => String.mk (List.replicate n 'a')) := by
    intro m n h
    simpa using congrArg List.length (congrArg String.data h)
  have hcomp : Function.Injective (fun n : Nat =>
      (⟨hash_password (String.mk (List.replicate n 'a')),
        hash_password_length _⟩ : {s : String // s.length = 64})) := by
    intro m n h
    exact hg (hinj (congrArg Subtype.val h))
  have hfin : Finite {s : String // s.length = 64} := finite_digest_strings
  have : Finite Nat := Finite.of_injective _ hcomp
  exact not_finite Nat

/-- Counterexample to C8 as stated: because every digest has 64 characters
while passwords are unbounded, `hash_password` has collisions, so it is not
true that `verify P1 (hash_password P2)` is false for every pair of distinct
passwords. -/
theorem verify_hash_counterexample :
    ¬ ∀ p1 p2 : String, p1 ≠ p2 → verify p1 (hash_password p2) = false := by
  intro hclaim
  apply hash_password_not_injective
  intro a b hab
  by_contra hne
  have hv := hclaim a b hne
  simp [verify, hab] at hv

/-- C8 (amended): `verify P (hash_password P)` is always true, and
`verify P1 (hash_password P2)` is false exactly when the two digests differ
(for distinct passwords whose digests collide it is true). -/
theorem verify_hash_contract :
    (∀ p : String, verify p (hash_password p) = true)
    ∧ ∀ p1 p2 : String,
        (verify p1 (hash_password p2) = false ↔ hash_password p1 ≠ hash_password p2) := by
  constructor
  · intro p
    simp [verify]
  · intro p1 p2
    simp [verify]

/-- Witness for C8 (amended) at a concrete password. -/
theorem verify_hash_contract_witness :
    verify "pw123456" (hash_password "pw123456") = true :=
  verify_hash_contract.1 "pw123456"
